import Mathlib

/-
Verification of the ThrottleX API-gateway middleware.

The development shallowly embeds the request-time gateway pipeline:
the fixed-window rate limiter (class RateLimiter), the route-config
resolver (class RouteConfigService), and the two middleware dispatcher
variants (the session-cookie gateway in src/middleware.ts and the
API-key gateway in src/unnamed/part_007).  External collaborators
(the route backing store, the API-key verification endpoint, the
proxied backend) are modelled as oracle inputs; the observable calls
the dispatcher makes to them are recorded in an effect trace, and the
audit-log emissions in a log trace.
-/

namespace ThrottleX

/-- Entry of the rate-limit tracker map: src/middleware.ts line 27,
`{ count: number; resetTime: number }`. -/
structure Entry where
  count : Nat
  resetTime : Nat
deriving DecidableEq

/-- Result of RateLimiter.check: `{ allowed: boolean; remaining: number }`
(src/middleware.ts line 35).  `remaining` is an integer because
`limit - 1` may be negative in the source. -/
structure CheckResult where
  allowed : Bool
  remaining : Int
deriving DecidableEq

/-- The tracker map `Map<string, { count, resetTime }>` of RateLimiter,
modelled as an association list where an insert shadows older entries
(JS `Map.set` observed through `Map.get`). -/
abbrev Tracker := List (String × Entry)

namespace RateLimiter

/-- RateLimiter.check, src/middleware.ts lines 35-56 (identical in
src/unnamed/part_007 lines 34-55).  `windowMs` is the constructor
field (default 60000); `now` stands for Date.now(). -/
def check (tracker : Tracker) (windowMs : Nat) (key : String) (limit : Int)
    (now : Nat) : CheckResult × Tracker :=
  match tracker.lookup key with
  | none =>
      ({ allowed := true, remaining := limit - 1 },
        (key, ⟨1, now + windowMs⟩) :: tracker)
  | some entry =>
      if entry.resetTime < now then
        ({ allowed := true, remaining := limit - 1 },
          (key, ⟨1, now + windowMs⟩) :: tracker)
      else if limit ≤ (entry.count : Int) then
        ({ allowed := false, remaining := 0 }, tracker)
      else
        ({ allowed := true,
            remaining := max 0 (limit - ((entry.count + 1 : Nat) : Int)) },
          (key, ⟨entry.count + 1, entry.resetTime⟩) :: tracker)

/-- The rate-limiter algorithm exactly as the specification words it:
fresh window on a missing or elapsed entry with remaining = limit - 1;
rejection with remaining = 0 when count has reached the limit; otherwise
increment and report remaining = limit - count (count after the
increment), with no clamp. -/
def checkSpec (tracker : Tracker) (windowMs : Nat) (key : String) (limit : Int)
    (now : Nat) : CheckResult × Tracker :=
  match tracker.lookup key with
  | none =>
      ({ allowed := true, remaining := limit - 1 },
        (key, ⟨1, now + windowMs⟩) :: tracker)
  | some entry =>
      if entry.resetTime < now then
        ({ allowed := true, remaining := limit - 1 },
          (key, ⟨1, now + windowMs⟩) :: tracker)
      else if limit ≤ (entry.count : Int) then
        ({ allowed := false, remaining := 0 }, tracker)
      else
        ({ allowed := true,
            remaining := limit - ((entry.count + 1 : Nat) : Int) },
          (key, ⟨entry.count + 1, entry.resetTime⟩) :: tracker)

end RateLimiter

/-- One call to RateLimiter.check: the key, the limit passed, and the
time at which the call happens. -/
structure Call where
  key : String
  limit : Int
  now : Nat

/-- Runs a sequence of check calls against one RateLimiter (window
length `windowMs`), starting from the empty tracker the constructor
builds (src/middleware.ts lines 30-33). -/
def runCalls (windowMs : Nat) (calls : List Call) : Tracker :=
  calls.foldl (fun t c => (RateLimiter.check t windowMs c.key c.limit c.now).2) []

/-- Observable external calls the dispatcher makes during one request:
the route-config fetch, a RateLimiter.check call (with the key and the
limit it was given), the API-key verification fetch, and the outbound
proxy fetch. -/
inductive Effect where
  | storeLookup
  | rateCheck (key : String) (limit : Int)
  | keyVerify
  | proxyCall
deriving DecidableEq

/-- One audit-log emission (logRequestToAPI call): the statusCode field
of the payload, when present, and the truthiness of its isError field. -/
structure LogRec where
  statusCode : Option Nat
  isError : Bool
deriving DecidableEq

/-- The `middlewares` object of a RouteConfig
(src/unnamed/part_007 lines 60-67). -/
structure Middlewares where
  auth : Bool
  apiKey : Bool
  requiredScopes : Option (List String)
  cors : Option String
deriving DecidableEq

/-- RouteConfig as the middleware consumes it (src/middleware.ts lines
59-68, src/unnamed/part_007 lines 58-74).  `svcAuthHeader`/`svcApiKey`
stand for `serviceMetadata?.authHeader` and `serviceMetadata?.apiKey`;
a falsy (absent or empty) `targetUrl` is modelled as the empty string. -/
structure RouteConfig where
  targetUrl : String
  middlewares : Option Middlewares
  rateLimit : Option Int
  cacheTtl : Option Nat
  svcAuthHeader : Option String
  svcApiKey : Option String
  id : String
  serviceId : String
  status : Nat
deriving DecidableEq

/-- Outcome of the backing-store fetch inside
RouteConfigService.getRouteConfig: the fetch threw (network fault), the
response was not ok, or it was ok and carried a config. -/
inductive StoreOutcome where
  | fault
  | notOk
  | ok (config : RouteConfig)
deriving DecidableEq

/-- Outcome of the outbound proxy fetch: a backend response with a
status code, or a thrown fault (timeout via AbortSignal.timeout(5000),
or any network error). -/
inductive ProxyOutcome where
  | ok (status : Nat)
  | failure
deriving DecidableEq

/-- Response produced by one middleware invocation: NextResponse.next()
pass-through, a redirect, a JSON error body with a status, or the
relayed proxy response. -/
inductive GResp where
  | next
  | redirect (loc : String)
  | jsonErr (msg : String) (status : Nat)
  | proxied (status : Nat)
deriving DecidableEq

/-- Result of one middleware invocation: the response, the audit-log
records emitted, and the external calls made, in order. -/
structure RunResult where
  resp : GResp
  logs : List LogRec
  effects : List Effect
deriving DecidableEq

/-- JS `String.prototype.startsWith`, modelled on the character list of
the string so that it evaluates on concrete inputs. -/
def strStartsWith (s p : String) : Bool := p.data.isPrefixOf s.data

/-- Splitting a character list at every occurrence of a separator
character, keeping empty segments, as JS `String.prototype.split`
does. -/
def splitChar (c : Char) (l : List Char) : List (List Char) :=
  l.foldr
    (fun x acc =>
      if x = c then [] :: acc
      else
        match acc with
        | h :: t => (x :: h) :: t
        | [] => [[x]])
    [[]]

/-- JS `s.split(" ")`. -/
def jsSplitSpace (s : String) : List String :=
  (splitChar ' ' s.data).map (fun l => String.mk l)

/-- Path normalization in getRouteConfig:
`pathname.replace(/^\/api/, "")` (src/middleware.ts line 77).  The
percent-decoding step is not modelled; the paths considered contain no
escape sequences. -/
def cleanPath (p : String) : String :=
  if strStartsWith p "/api" then p.drop 4 else p

/-- RouteConfigService.getRouteConfig, src/middleware.ts lines 71-102
(identically src/unnamed/part_007 lines 77-103): queries the backing
store at the normalized path and method; a thrown error and a non-ok
response are both collapsed to null. -/
def getRouteConfig (store : String → String → StoreOutcome)
    (pathname method : String) : Option RouteConfig :=
  match store (cleanPath pathname) method with
  | .fault => none
  | .notOk => none
  | .ok c => some c

/-- Environment of one invocation of the gateway-variant middleware
(src/middleware.ts): the request data, the two session signals
(getSessionCookie and the session_token cookie read by
AuthService.validateSession), and oracles for the three external
collaborators.  `urlValid` tells whether `new URL(targetUrl)`
succeeds. -/
structure GateEnv where
  pathname : String
  method : String
  ip : String
  hasSessionCookie : Bool
  sessionTokenPresent : Bool
  store : String → String → StoreOutcome
  urlValid : String → Bool
  proxy : ProxyOutcome
  now : Nat

/-- The gateway-variant dispatcher, src/middleware.ts lines 112-343:
skip internal prefixes; for /api/ paths, pass through (or redirect)
when no session cookie is present, else resolve the route (404 when
null or targetUrl falsy), enforce the auth middleware, run a fresh
RateLimiter once with limit `routeConfig.rateLimit ?? 100`, validate
the target URL, and proxy (503 on a thrown proxy fault). -/
def gatewayRun (env : GateEnv) : RunResult :=
  if strStartsWith env.pathname "/api/internal" || strStartsWith env.pathname "/api/auth"
      || strStartsWith env.pathname "/api/routes/" then
    { resp := .next, logs := [⟨none, false⟩], effects := [] }
  else if strStartsWith env.pathname "/api/" then
    if !env.hasSessionCookie then
      if strStartsWith env.pathname "/dashboard" || strStartsWith env.pathname "/api/get/user/"
          || strStartsWith env.pathname "/services" || strStartsWith env.pathname "/routes"
          || strStartsWith env.pathname "/route" || strStartsWith env.pathname "/account" then
        { resp := .redirect "/sign-in", logs := [], effects := [] }
      else
        { resp := .next, logs := [], effects := [] }
    else
      match getRouteConfig env.store env.pathname env.method with
      | none =>
          { resp := .jsonErr "Route not configured" 404, logs := [],
            effects := [.storeLookup] }
      | some cfg =>
          if cfg.targetUrl = "" then
            { resp := .jsonErr "Route not configured" 404, logs := [],
              effects := [.storeLookup] }
          else if (cfg.middlewares.map (·.auth)).getD false
              && !env.sessionTokenPresent then
            { resp := .redirect "/sign-in", logs := [], effects := [.storeLookup] }
          else
            let rateLimit := cfg.rateLimit.getD 100
            let res := (RateLimiter.check [] 60000 env.ip rateLimit env.now).1
            if !res.allowed then
              { resp := .jsonErr "Rate limit exceeded" 429,
                logs := [⟨some 429, true⟩],
                effects := [.storeLookup, .rateCheck env.ip rateLimit] }
            else if !env.urlValid cfg.targetUrl then
              { resp := .jsonErr "Invalid service configuration" 500,
                logs := [⟨some 500, true⟩],
                effects := [.storeLookup, .rateCheck env.ip rateLimit] }
            else
              match env.proxy with
              | .ok s =>
                  { resp := .proxied s, logs := [⟨some s, decide (400 ≤ s)⟩],
                    effects := [.storeLookup, .rateCheck env.ip rateLimit,
                      .proxyCall] }
              | .failure =>
                  { resp := .jsonErr "Service unavailable" 503,
                    logs := [⟨some 503, true⟩],
                    effects := [.storeLookup, .rateCheck env.ip rateLimit,
                      .proxyCall] }
  else
    { resp := .next, logs := [], effects := [] }

/-- API-key record as AuthService.verifyApiKey returns it
(src/unnamed/part_007 lines 112-126), restricted to the fields the
dispatcher reads: id, scopes, rateLimit and the owning user id. -/
structure ApiKey where
  id : String
  scopes : List String
  rateLimit : Int
  userId : String
deriving DecidableEq

/-- Outcome of AuthService.verifyApiKey: a valid key with its
metadata, or an invalid/failed verification carrying the endpoint's
stated error reason when it gave one (src/unnamed/part_007
lines 127-147). -/
inductive VerifyOutcome where
  | valid (key : ApiKey)
  | invalid (error : Option String)
deriving DecidableEq

/-- Environment of one invocation of the API-key-variant middleware
(src/unnamed/part_007): the request data, the Authorization header,
the two session signals, and oracles for the backing store, the key
verification endpoint and the proxied backend. -/
structure KeyEnv where
  pathname : String
  method : String
  ip : String
  authHeader : Option String
  hasSessionCookie : Bool
  sessionTokenPresent : Bool
  store : String → String → StoreOutcome
  verify : String → VerifyOutcome
  proxy : ProxyOutcome
  now : Nat

/-- Bearer-token extraction `authHeader?.split(" ")[1]`
(src/unnamed/part_007 line 213); the result is falsy when the header
is absent, has no second token, or the second token is empty. -/
def bearerToken (authHeader : Option String) : Option String :=
  authHeader.bind (fun h => (jsSplitSpace h).get? 1)

/-- The API-key-variant dispatcher, src/unnamed/part_007 lines 150-416:
skip internal prefixes; resolve the route (404 + error log when null);
enforce the auth middleware; for /api/gate/ paths or apiKey routes,
require a bearer credential (401 if falsy), verify it (401 on
failure), check requiredScopes (403 "Insufficient permissions"), run a
fresh RateLimiter with limit `routeConfig.rateLimit ??
verification.key.rateLimit` keyed by `keyId:ip`, then proxy /api/gate/
paths (503 on a thrown fault) or pass through with augmented headers;
other paths fall to the dashboard session check. -/
def keyRun (env : KeyEnv) : RunResult :=
  if strStartsWith env.pathname "/api/internal" || strStartsWith env.pathname "/api/auth"
      || strStartsWith env.pathname "/api/routes/" then
    { resp := .next, logs := [⟨none, false⟩], effects := [] }
  else
    match getRouteConfig env.store env.pathname env.method with
    | none =>
        { resp := .jsonErr "Route not configured" 404,
          logs := [⟨some 404, true⟩], effects := [.storeLookup] }
    | some cfg =>
        if (cfg.middlewares.map (·.auth)).getD false
            && !env.sessionTokenPresent then
          { resp := .redirect "/sign-in", logs := [⟨some 401, true⟩],
            effects := [.storeLookup] }
        else if strStartsWith env.pathname "/api/gate/"
            || (cfg.middlewares.map (·.apiKey)).getD false then
          match bearerToken env.authHeader with
          | none =>
              { resp := .jsonErr "API key is required in Authorization header" 401,
                logs := [⟨some 401, true⟩], effects := [.storeLookup] }
          | some apiKey =>
              if apiKey = "" then
                { resp := .jsonErr "API key is required in Authorization header" 401,
                  logs := [⟨some 401, true⟩], effects := [.storeLookup] }
              else
                match env.verify apiKey with
                | .invalid err =>
                    { resp := .jsonErr (err.getD "Invalid API key") 401,
                      logs := [⟨some 401, true⟩],
                      effects := [.storeLookup, .keyVerify] }
                | .valid key =>
                    let requiredScopes :=
                      (cfg.middlewares.bind (·.requiredScopes)).getD []
                    if 0 < requiredScopes.length
                        && !requiredScopes.all (fun s => key.scopes.contains s) then
                      { resp := .jsonErr "Insufficient permissions" 403,
                        logs := [⟨some 403, true⟩],
                        effects := [.storeLookup, .keyVerify] }
                    else
                      let rateLimit := cfg.rateLimit.getD key.rateLimit
                      let rateKey := key.id ++ ":" ++ env.ip
                      let res := (RateLimiter.check [] 60000 rateKey rateLimit env.now).1
                      if !res.allowed then
                        { resp := .jsonErr "Rate limit exceeded" 429,
                          logs := [⟨some 429, true⟩],
                          effects := [.storeLookup, .keyVerify,
                            .rateCheck rateKey rateLimit] }
                      else if strStartsWith env.pathname "/api/gate/" then
                        match env.proxy with
                        | .ok s =>
                            { resp := .proxied s,
                              logs := [⟨some s, decide (400 ≤ s)⟩],
                              effects := [.storeLookup, .keyVerify,
                                .rateCheck rateKey rateLimit, .proxyCall] }
                        | .failure =>
                            { resp := .jsonErr "Service unavailable" 503,
                              logs := [⟨some 503, true⟩],
                              effects := [.storeLookup, .keyVerify,
                                .rateCheck rateKey rateLimit, .proxyCall] }
                      else
                        { resp := .next, logs := [],
                          effects := [.storeLookup, .keyVerify,
                            .rateCheck rateKey rateLimit] }
        else
          if (strStartsWith env.pathname "/dashboard" || strStartsWith env.pathname "/account"
                || strStartsWith env.pathname "/services" || strStartsWith env.pathname "/routes")
              && !env.hasSessionCookie then
            { resp := .redirect "/sign-in", logs := [], effects := [.storeLookup] }
          else
            { resp := .next, logs := [], effects := [.storeLookup] }

/-- The claimed effective-rate-limit resolution order, modelled from
the spec's words: explicit route limit, then (in API-key mode) the
verified key's limit, then the service-level limit, then a hardcoded
default — the first value that is set. -/
def claimLimitResolution (routeLimit keyLimit serviceLimit : Option Int)
    (dflt : Int) : Int :=
  ((routeLimit.orElse fun _ => keyLimit).orElse fun _ => serviceLimit).getD dflt

/-- One call to RouteConfigService.getRouteConfig together with the
backing-store calls it makes: the fetch at lines 79-90 of
src/middleware.ts is unconditional, so every call performs exactly one
backing-store lookup. -/
def resolveRouteRun (store : String → String → StoreOutcome)
    (pathname method : String) : Option RouteConfig × List Effect :=
  (getRouteConfig store pathname method, [Effect.storeLookup])

/-- Two successive route resolutions of the same (path, method) with
the same backing-store state in between. -/
def resolveTwice (store : String → String → StoreOutcome)
    (pathname method : String) :
    (Option RouteConfig × List Effect) × (Option RouteConfig × List Effect) :=
  (resolveRouteRun store pathname method, resolveRouteRun store pathname method)

/-- A benign route configuration used in concrete scenarios: a valid
target, no middleware requirements, no explicit rate limit. -/
def demoConfig : RouteConfig :=
  ⟨"https://svc.example", none, none, none, none, none, "r1", "s1", 1⟩

/-- A request environment in which the backing-store fetch throws
during route resolution (network fault), with a valid session. -/
def storeFaultEnv : GateEnv :=
  ⟨"/api/users", "GET", "203.0.113.7", true, true, fun _ _ => StoreOutcome.fault,
    fun _ => true, ProxyOutcome.ok 200, 0⟩

/-- A request environment whose route has no explicit rate limit; the
deployment it models gives the owning service a service-level limit of
5, which the middleware has no way to observe. -/
def serviceLimitEnv : GateEnv :=
  ⟨"/api/users", "GET", "203.0.113.7", true, true,
    fun _ _ => StoreOutcome.ok demoConfig, fun _ => true, ProxyOutcome.ok 200, 0⟩

/-- A route configuration with an explicit rate limit of 0. -/
def zeroLimitConfig : RouteConfig :=
  ⟨"https://svc.example", none, some 0, none, none, none, "r2", "s1", 1⟩

/-- A request environment whose route carries the explicit limit 0. -/
def zeroLimitEnv : GateEnv :=
  ⟨"/api/users", "GET", "203.0.113.7", true, true,
    fun _ _ => StoreOutcome.ok zeroLimitConfig, fun _ => true, ProxyOutcome.ok 200, 0⟩

/-- A route configuration requiring an API key, with no explicit rate
limit and no required scopes. -/
def apiKeyConfig : RouteConfig :=
  ⟨"https://svc.example", some ⟨false, true, none, none⟩, none, none, none, none,
    "r3", "s1", 1⟩

/-- An API key with rate limit 7 and the single scope read. -/
def keyB : ApiKey := ⟨"key1", ["read"], 7, "u1"⟩

/-- A request environment for the API-key variant presenting a valid
bearer credential for keyB on an apiKey-protected route. -/
def keyLimitEnv : KeyEnv :=
  ⟨"/api/data", "GET", "9.9.9.9", some "Bearer tok", true, true,
    fun _ _ => StoreOutcome.ok apiKeyConfig, fun _ => VerifyOutcome.valid keyB,
    ProxyOutcome.ok 200, 0⟩

lemma check_empty_allowed (w : Nat) (key : String) (limit : Int) (now : Nat) :
    (RateLimiter.check [] w key limit now).1.allowed = true := rfl

lemma mem_of_lookup {t : Tracker} {k : String} {e : Entry}
    (h : t.lookup k = some e) : (k, e) ∈ t := by
  induction t with
  | nil => simp [List.lookup] at h
  | cons p tl ih =>
      obtain ⟨k1, e1⟩ := p
      simp only [List.lookup] at h
      by_cases hk : k == k1
      · simp only [hk] at h
        have hke : k = k1 := eq_of_beq hk
        subst hke
        cases h
        exact List.mem_cons.mpr (Or.inl rfl)
      · rw [Bool.not_eq_true] at hk
        simp only [hk] at h
        exact List.mem_cons.mpr (Or.inr (ih h))

lemma check_preserves_bound (w : Nat) (L : String → Int) (t : Tracker)
    (key : String) (now : Nat) (hL : 1 ≤ L key)
    (ht : ∀ p ∈ t, (p.2.count : Int) ≤ L p.1) :
    ∀ p ∈ (RateLimiter.check t w key (L key) now).2,
      (p.2.count : Int) ≤ L p.1 := by
  cases h : t.lookup key with
  | none =>
      simp only [RateLimiter.check, h]
      intro p hp
      rcases List.mem_cons.mp hp with h1 | h1
      · subst h1; simpa using hL
      · exact ht p h1
  | some e =>
      simp only [RateLimiter.check, h]
      by_cases h1 : e.resetTime < now
      · rw [if_pos h1]
        intro p hp
        rcases List.mem_cons.mp hp with h2 | h2
        · subst h2; simpa using hL
        · exact ht p h2
      · rw [if_neg h1]
        by_cases h2 : L key ≤ (e.count : Int)
        · rw [if_pos h2]; exact ht
        · rw [if_neg h2]
          intro p hp
          rcases List.mem_cons.mp hp with h3 | h3
          · subst h3
            show ((e.count + 1 : Nat) : Int) ≤ L key
            push_cast
            omega
          · exact ht p h3


lemma foldl_check_bound (w : Nat) (L : String → Int) :
    ∀ (calls : List Call) (t : Tracker),
      (∀ c ∈ calls, c.limit = L c.key ∧ 1 ≤ L c.key) →
      (∀ p ∈ t, (p.2.count : Int) ≤ L p.1) →
      ∀ p ∈ calls.foldl
          (fun t' c => (RateLimiter.check t' w c.key c.limit c.now).2) t,
        (p.2.count : Int) ≤ L p.1 := by
  intro calls
  induction calls with
  | nil => intro t _ ht; simpa using ht
  | cons c cs ih =>
      intro t hc ht
      rw [List.foldl_cons]
      refine ih _ (fun c' hc' => hc c' (List.mem_cons_of_mem _ hc')) ?_
      obtain ⟨hcl, hcL⟩ := hc c (List.mem_cons_self _ _)
      rw [hcl]
      exact check_preserves_bound w L t c.key c.now hcL ht

/-- Claim C1 (code behavior at the failing input): when the
backing-store lookup throws during route resolution, getRouteConfig
collapses the fault to null, and the dispatcher answers the 404
"Route not configured" it reserves for absent routes — not a 5xx —
after having performed the store lookup. -/
theorem store_fault_yields_404 :
    (gatewayRun storeFaultEnv).resp = GResp.jsonErr "Route not configured" 404
    ∧ (gatewayRun storeFaultEnv).effects = [Effect.storeLookup]
    ∧ 404 < 500 := by decide

/-- Claim C2: RateLimiter.check behaves exactly as the claimed
algorithm for every tracker state, key, integer limit and time: fresh
window with count 1 and remaining = limit - 1 on a missing or elapsed
entry; rejection with remaining = 0 and an unchanged entry once count
has reached the limit; otherwise an increment with remaining =
limit - count (count after the increment) — the source's
Math.max(0, ...) clamp is provably inert in that branch. -/
theorem check_matches_claimed_algorithm (t : Tracker) (w : Nat) (k : String)
    (l : Int) (n : Nat) :
    RateLimiter.check t w k l n = RateLimiter.checkSpec t w k l n := by
  cases h : t.lookup k with
  | none => simp only [RateLimiter.check, RateLimiter.checkSpec, h]
  | some e =>
      simp only [RateLimiter.check, RateLimiter.checkSpec, h]
      by_cases h1 : e.resetTime < n
      · simp [h1]
      · by_cases h2 : l ≤ (e.count : Int)
        · simp [h1, h2]
        · have hm : max 0 (l - ((e.count + 1 : Nat) : Int))
              = l - ((e.count + 1 : Nat) : Int) := by
            apply max_eq_right
            push_cast
            omega
          simp only [h1, h2, hm, if_false]

/-- Claim C3: a check on the empty tracker a fresh RateLimiter starts
with always admits (whatever the limit), each dispatcher invocation of
either variant performs at most one rate check, and the 429
rate-limit-rejection branch is unreachable in both middleware
variants. -/
theorem fresh_limiter_429_unreachable :
    (∀ (w : Nat) (key : String) (limit : Int) (now : Nat),
        (RateLimiter.check [] w key limit now).1.allowed = true)
    ∧ (∀ env : GateEnv,
        (gatewayRun env).resp ≠ GResp.jsonErr "Rate limit exceeded" 429
        ∧ (gatewayRun env).effects.countP
            (fun e => match e with | .rateCheck _ _ => true | _ => false) ≤ 1)
    ∧ ∀ env : KeyEnv,
        (keyRun env).resp ≠ GResp.jsonErr "Rate limit exceeded" 429
        ∧ (keyRun env).effects.countP
            (fun e => match e with | .rateCheck _ _ => true | _ => false) ≤ 1 := by
  refine ⟨fun w key limit now => rfl, fun env => ?_, fun env => ?_⟩
  · simp only [gatewayRun]
    repeat' split
    all_goals simp_all [check_empty_allowed, List.countP_cons, List.countP_nil]
  · simp only [keyRun]
    repeat' split
    all_goals simp_all [check_empty_allowed, List.countP_cons, List.countP_nil]

/-- Claim C4 (counterexample): a first check at time 100 with limit 1
creates the entry (count 1, resetTime 60100); a second check at time
60100 — where now ≥ resetTime — leaves the entry unchanged instead of
resetting it to (1, 120100), because the source resets only on the
strict comparison resetTime < now; and a single check with limit 0
produces an entry whose count 1 exceeds the limit while now <
resetTime, refuting the bound for limit 0. -/
theorem reset_boundary_zero_limit_counterexample :
    ((runCalls 60000 [⟨"k", 1, 100⟩]).lookup "k" = some ⟨1, 60100⟩)
    ∧ (60100 : Nat) ≤ 60100
    ∧ ((runCalls 60000 [⟨"k", 1, 100⟩, ⟨"k", 1, 60100⟩]).lookup "k"
        = some ⟨1, 60100⟩)
    ∧ (Entry.mk 1 60100 ≠ Entry.mk 1 (60100 + 60000))
    ∧ ((runCalls 60000 [⟨"k", 0, 0⟩]).lookup "k" = some ⟨1, 60000⟩)
    ∧ ¬ (((1 : Nat) : Int) ≤ (0 : Int))
    ∧ (0 : Nat) < 60000 := by decide

/-- Claim C4 (amended): over any sequence of check calls in which each
key is always given the same limit, of value at least 1, every stored
entry's count stays at or below that key's limit (at all times, hence
in particular while now < resetTime); and whenever an entry's window
has elapsed in the source's sense — resetTime strictly less than now —
the next check on that key resets the entry to count = 1 with
resetTime = now + windowMs. -/
theorem count_bounded_and_strict_reset :
    (∀ (w : Nat) (L : String → Int) (calls : List Call),
        (∀ c ∈ calls, c.limit = L c.key ∧ 1 ≤ L c.key) →
        ∀ (k : String) (e : Entry), (runCalls w calls).lookup k = some e →
          (e.count : Int) ≤ L k)
    ∧ ∀ (w : Nat) (t : Tracker) (k : String) (limit : Int) (now : Nat) (e : Entry),
        t.lookup k = some e → e.resetTime < now →
        ((RateLimiter.check t w k limit now).2).lookup k = some ⟨1, now + w⟩ := by
  constructor
  · intro w L calls hc k e hlook
    exact foldl_check_bound w L calls [] hc (by simp) (k, e) (mem_of_lookup hlook)
  · intro w t k limit now e hlook hreset
    simp only [RateLimiter.check, hlook]
    rw [if_pos hreset]
    simp [List.lookup]

/-- Claim C4 (witness): the amended theorem applied at concrete
inputs — two admitted calls at limit 2 leave count 2 ≤ 2, and a check
at time 6 on an entry with resetTime 5 resets it to (1, 60006). -/
theorem count_bounded_and_strict_reset_witness :
    (((2 : Nat) : Int) ≤ (2 : Int))
    ∧ ((RateLimiter.check [("k", ⟨1, 5⟩)] 60000 "k" 2 6).2.lookup "k"
        = some ⟨1, 6 + 60000⟩) :=
  ⟨count_bounded_and_strict_reset.1 60000 (fun _ => 2)
      [⟨"k", 2, 0⟩, ⟨"k", 2, 10⟩] (by decide) "k" ⟨2, 60000⟩ (by decide),
    count_bounded_and_strict_reset.2 60000 [("k", ⟨1, 5⟩)] "k" 2 6 ⟨1, 5⟩
      (by decide) (by decide)⟩

/-- Claim C5 (counterexample): resolving (GET, /api/users) twice
against an unchanged backing store returns the same config, but the
second resolution still performs a backing-store lookup — there is no
in-memory cache in getRouteConfig, so no resolution is ever answered
without consulting the backing store. -/
theorem second_resolution_consults_store_counterexample :
    ((resolveTwice (fun _ _ => StoreOutcome.ok demoConfig) "/api/users" "GET").1.1
      = (resolveTwice (fun _ _ => StoreOutcome.ok demoConfig) "/api/users" "GET").2.1)
    ∧ Effect.storeLookup
        ∈ (resolveTwice (fun _ _ => StoreOutcome.ok demoConfig) "/api/users" "GET").2.2 := by
  decide

/-- Claim C5 (amended): for every backing store and (path, method),
two successive resolutions with no intervening store change return
identical results, and each of the two resolutions — the second
included — consults the backing store, since getRouteConfig has no
cache. -/
theorem resolve_idempotent_but_uncached
    (store : String → String → StoreOutcome) (pathname method : String) :
    (resolveTwice store pathname method).1.1 = (resolveTwice store pathname method).2.1
    ∧ Effect.storeLookup ∈ (resolveTwice store pathname method).1.2
    ∧ Effect.storeLookup ∈ (resolveTwice store pathname method).2.2 := by
  refine ⟨rfl, ?_, ?_⟩ <;> simp [resolveTwice, resolveRouteRun]

/-- Claim C6 (counterexample): on a route with no explicit rateLimit
owned by a service whose service-level limit is 5, the gateway variant
rate-checks with the hardcoded 100 — the claimed resolution order,
which consults the service-level limit before the default, would give
5. -/
theorem service_limit_ignored_counterexample :
    Effect.rateCheck "203.0.113.7" 100 ∈ (gatewayRun serviceLimitEnv).effects
    ∧ claimLimitResolution none none (some 5) 100 = 5
    ∧ ((100 : Int) ≠ 5) := by decide

/-- Claim C6 (amended): whenever a request reaches the rate-limit
stage, the limit actually used is the route's explicit rateLimit when
set (an explicit 0 included), else the hardcoded 100 in the gateway
variant, and else the verified key's rateLimit in the API-key
variant; no service-level limit is ever consulted. -/
theorem effective_limit_route_then_key_or_default :
    (∀ (env : GateEnv) (cfg : RouteConfig),
        (strStartsWith env.pathname "/api/internal"
          || strStartsWith env.pathname "/api/auth"
          || strStartsWith env.pathname "/api/routes/") = false →
        strStartsWith env.pathname "/api/" = true →
        env.hasSessionCookie = true →
        env.store (cleanPath env.pathname) env.method = StoreOutcome.ok cfg →
        cfg.targetUrl ≠ "" →
        ((cfg.middlewares.map (·.auth)).getD false
          && !env.sessionTokenPresent) = false →
        Effect.rateCheck env.ip (cfg.rateLimit.getD 100) ∈ (gatewayRun env).effects)
    ∧ ∀ (env : KeyEnv) (cfg : RouteConfig) (key : ApiKey) (tok : String),
        (strStartsWith env.pathname "/api/internal"
          || strStartsWith env.pathname "/api/auth"
          || strStartsWith env.pathname "/api/routes/") = false →
        env.store (cleanPath env.pathname) env.method = StoreOutcome.ok cfg →
        ((cfg.middlewares.map (·.auth)).getD false
          && !env.sessionTokenPresent) = false →
        (strStartsWith env.pathname "/api/gate/"
          || (cfg.middlewares.map (·.apiKey)).getD false) = true →
        bearerToken env.authHeader = some tok →
        tok ≠ "" →
        env.verify tok = VerifyOutcome.valid key →
        ((cfg.middlewares.bind (·.requiredScopes)).getD []).all
            (fun s => key.scopes.contains s) = true →
        Effect.rateCheck (key.id ++ ":" ++ env.ip) (cfg.rateLimit.getD key.rateLimit)
          ∈ (keyRun env).effects := by
  constructor
  · intro env cfg hInt hApi hCookie hStore hTarget hAuth
    simp only [gatewayRun, getRouteConfig, hInt, hApi, hCookie, hStore, hTarget, hAuth]
    simp [check_empty_allowed]
    by_cases hu : env.urlValid cfg.targetUrl
    · simp only [hu]
      cases env.proxy <;> simp
    · simp [hu]
  · intro env cfg key tok hInt hStore hAuth hMode hTok hTokNe hVerify hScopes
    simp only [keyRun, getRouteConfig, hInt, hStore, hAuth, hMode, hTok, hVerify, hScopes]
    simp [hTokNe, check_empty_allowed]
    by_cases hg : strStartsWith env.pathname "/api/gate/"
    · simp only [hg]
      cases env.proxy <;> simp
    · simp [hg]

/-- Claim C6 (witness): the amended theorem at concrete inputs — a
route with explicit limit 0 is rate-checked at 0 (the fallback does
not replace it), and a route with no explicit limit under a key with
limit 7 is rate-checked at 7. -/
theorem effective_limit_witness :
    Effect.rateCheck zeroLimitEnv.ip (zeroLimitConfig.rateLimit.getD 100)
      ∈ (gatewayRun zeroLimitEnv).effects
    ∧ Effect.rateCheck (keyB.id ++ ":" ++ keyLimitEnv.ip)
        (apiKeyConfig.rateLimit.getD keyB.rateLimit)
      ∈ (keyRun keyLimitEnv).effects :=
  ⟨effective_limit_route_then_key_or_default.1 zeroLimitEnv zeroLimitConfig
      (by decide) (by decide) rfl rfl (by decide) rfl,
    effective_limit_route_then_key_or_default.2 keyLimitEnv apiKeyConfig keyB "tok"
      (by decide) rfl rfl (by decide) (by decide) (by decide) rfl (by decide)⟩

/-- Claim C7: for an API-key-mode request whose bearer credential
verifies to a valid key, on a route declaring a non-empty
requiredScopes list, the dispatcher answers 403 "Insufficient
permissions" exactly when some required scope is missing from the
key's scope set — equivalently, the request proceeds past
authorization if and only if every required scope is a member of the
key's scopes. -/
theorem scope_authorization_iff (env : KeyEnv) (cfg : RouteConfig) (key : ApiKey)
    (tok : String)
    (hInt : (strStartsWith env.pathname "/api/internal"
        || strStartsWith env.pathname "/api/auth"
        || strStartsWith env.pathname "/api/routes/") = false)
    (hStore : env.store (cleanPath env.pathname) env.method = StoreOutcome.ok cfg)
    (hAuth : ((cfg.middlewares.map (·.auth)).getD false
        && !env.sessionTokenPresent) = false)
    (hMode : (strStartsWith env.pathname "/api/gate/"
        || (cfg.middlewares.map (·.apiKey)).getD false) = true)
    (hTok : bearerToken env.authHeader = some tok)
    (hTokNe : tok ≠ "")
    (hVerify : env.verify tok = VerifyOutcome.valid key)
    (hScopes : (cfg.middlewares.bind (·.requiredScopes)).getD [] ≠ []) :
    (keyRun env).resp = GResp.jsonErr "Insufficient permissions" 403
      ↔ ¬ ∀ s ∈ (cfg.middlewares.bind (·.requiredScopes)).getD [],
          s ∈ key.scopes := by
  by_cases hall : ((cfg.middlewares.bind (·.requiredScopes)).getD []).all
      (fun s => key.scopes.contains s)
  · have hresp : (keyRun env).resp ≠ GResp.jsonErr "Insufficient permissions" 403 := by
      simp only [keyRun, getRouteConfig, hInt, hStore, hAuth, hMode, hTok]
      simp only [if_neg hTokNe, hVerify]
      simp only [hall, check_empty_allowed]
      simp [check_empty_allowed]
      by_cases hg : strStartsWith env.pathname "/api/gate/"
      · simp only [hg]
        cases env.proxy <;> simp
      · simp [hg]
    have hscope : ∀ s ∈ (cfg.middlewares.bind (·.requiredScopes)).getD [],
        s ∈ key.scopes := by simpa using hall
    exact iff_of_false hresp (not_not_intro hscope)
  · have h403 : (keyRun env).resp = GResp.jsonErr "Insufficient permissions" 403 := by
      simp only [keyRun, getRouteConfig, hInt, hStore, hAuth, hMode, hTok]
      simp only [if_neg hTokNe, hVerify]
      have hcond : (decide (0 < ((cfg.middlewares.bind (·.requiredScopes)).getD []).length)
          && !((cfg.middlewares.bind (·.requiredScopes)).getD []).all
            (fun s => key.scopes.contains s)) = true := by
        rw [Bool.and_eq_true]
        refine ⟨decide_eq_true (List.length_pos.mpr hScopes), ?_⟩
        rw [Bool.not_eq_true']
        exact Bool.eq_false_iff.mpr hall
      simp only [hcond]
      simp
    refine iff_of_true h403 ?_
    intro hc
    apply hall
    rw [List.all_eq_true]
    intro s hs
    simpa using hc s hs

/-- Claim C7 (witness): a route requiring the scope read admits a key
with scopes read and write — the 403 response is equivalent to the
(false) statement that some required scope is missing. -/
theorem scope_authorization_iff_witness :
    ((keyRun ⟨"/api/gate/pay", "GET", "1.1.1.1", some "Bearer tok", true, true,
        fun _ _ => StoreOutcome.ok
          ⟨"https://svc.example", some ⟨false, true, some ["read"], none⟩,
            none, none, none, none, "r4", "s1", 1⟩,
        fun _ => VerifyOutcome.valid ⟨"key1", ["read", "write"], 7, "u1"⟩,
        ProxyOutcome.ok 200, 0⟩).resp
      = GResp.jsonErr "Insufficient permissions" 403
      ↔ ¬ ∀ s ∈ (["read"] : List String), s ∈ ["read", "write"]) :=
  scope_authorization_iff _
    ⟨"https://svc.example", some ⟨false, true, some ["read"], none⟩,
      none, none, none, none, "r4", "s1", 1⟩
    ⟨"key1", ["read", "write"], 7, "u1"⟩ "tok"
    (by decide) rfl rfl (by decide) (by decide) (by decide) rfl (by decide)

/-- Claim C8: a request reaching the API-key stage with no
Authorization header is answered 401 with the exact message "API key
is required in Authorization header", one error log is emitted, and
the only external call of the whole invocation is the route lookup —
no key verification, no rate-limit check, no proxy call. -/
theorem missing_api_key_short_circuits (env : KeyEnv) (cfg : RouteConfig)
    (hInt : (strStartsWith env.pathname "/api/internal"
        || strStartsWith env.pathname "/api/auth"
        || strStartsWith env.pathname "/api/routes/") = false)
    (hStore : env.store (cleanPath env.pathname) env.method = StoreOutcome.ok cfg)
    (hAuth : ((cfg.middlewares.map (·.auth)).getD false
        && !env.sessionTokenPresent) = false)
    (hMode : (strStartsWith env.pathname "/api/gate/"
        || (cfg.middlewares.map (·.apiKey)).getD false) = true)
    (hHeader : env.authHeader = none) :
    keyRun env = ⟨GResp.jsonErr "API key is required in Authorization header" 401,
      [⟨some 401, true⟩], [Effect.storeLookup]⟩ := by
  simp [keyRun, getRouteConfig, bearerToken, hInt, hStore, hAuth, hMode, hHeader]

/-- Claim C8 (witness): the theorem at a concrete API-key-mode request
carrying no Authorization header. -/
theorem missing_api_key_short_circuits_witness :
    keyRun ⟨"/api/gate/pay", "POST", "1.1.1.1", none, true, true,
        fun _ _ => StoreOutcome.ok apiKeyConfig, fun _ => VerifyOutcome.valid keyB,
        ProxyOutcome.ok 200, 0⟩
      = ⟨GResp.jsonErr "API key is required in Authorization header" 401,
          [⟨some 401, true⟩], [Effect.storeLookup]⟩ :=
  missing_api_key_short_circuits _ apiKeyConfig (by decide) rfl rfl (by decide) rfl

/-- Claim C9: when a proxied request's outbound call faults (timeout
under the fixed 5-second deadline or any network error, both modelled
by ProxyOutcome.failure), the dispatcher catches the fault and answers
503 with the message "Service unavailable", and the invocation's audit
log is exactly one record, with isError = true. -/
theorem proxy_failure_503_single_error_log (env : GateEnv) (cfg : RouteConfig)
    (hInt : (strStartsWith env.pathname "/api/internal"
        || strStartsWith env.pathname "/api/auth"
        || strStartsWith env.pathname "/api/routes/") = false)
    (hApi : strStartsWith env.pathname "/api/" = true)
    (hCookie : env.hasSessionCookie = true)
    (hStore : env.store (cleanPath env.pathname) env.method = StoreOutcome.ok cfg)
    (hTarget : cfg.targetUrl ≠ "")
    (hAuth : ((cfg.middlewares.map (·.auth)).getD false
        && !env.sessionTokenPresent) = false)
    (hUrl : env.urlValid cfg.targetUrl = true)
    (hProxy : env.proxy = ProxyOutcome.failure) :
    (gatewayRun env).resp = GResp.jsonErr "Service unavailable" 503
    ∧ (gatewayRun env).logs = [⟨some 503, true⟩] := by
  simp [gatewayRun, getRouteConfig, hInt, hApi, hCookie, hStore, hTarget, hAuth,
    hUrl, hProxy, check_empty_allowed]

/-- Claim C9 (witness): the theorem at a concrete request whose
backend call fails. -/
theorem proxy_failure_503_single_error_log_witness :
    (gatewayRun ⟨"/api/users", "GET", "203.0.113.7", true, true,
        fun _ _ => StoreOutcome.ok demoConfig, fun _ => true,
        ProxyOutcome.failure, 0⟩).resp = GResp.jsonErr "Service unavailable" 503
    ∧ (gatewayRun ⟨"/api/users", "GET", "203.0.113.7", true, true,
        fun _ _ => StoreOutcome.ok demoConfig, fun _ => true,
        ProxyOutcome.failure, 0⟩).logs = [⟨some 503, true⟩] :=
  proxy_failure_503_single_error_log _ demoConfig (by decide) (by decide) rfl rfl
    (by decide) rfl rfl rfl

/-- Claim C10: in the gateway variant, a request to an /api/ path that
is not internal, carries no session cookie, and matches none of the
redirect path groups, is passed through with no route resolution, no
authentication, no rate check, no proxying and no log — the result is
exactly the pass-through with empty log and effect traces. -/
theorem unauthenticated_api_passthrough (env : GateEnv)
    (hInt : (strStartsWith env.pathname "/api/internal"
        || strStartsWith env.pathname "/api/auth"
        || strStartsWith env.pathname "/api/routes/") = false)
    (hApi : strStartsWith env.pathname "/api/" = true)
    (hCookie : env.hasSessionCookie = false)
    (hRedir : (strStartsWith env.pathname "/dashboard"
        || strStartsWith env.pathname "/api/get/user/"
        || strStartsWith env.pathname "/services"
        || strStartsWith env.pathname "/routes"
        || strStartsWith env.pathname "/route"
        || strStartsWith env.pathname "/account") = false) :
    gatewayRun env = ⟨GResp.next, [], []⟩ := by
  simp [gatewayRun, hInt, hApi, hCookie, hRedir]

/-- Claim C10 (witness): the theorem at a concrete cookie-less request
to /api/orders. -/
theorem unauthenticated_api_passthrough_witness :
    gatewayRun ⟨"/api/orders", "GET", "203.0.113.7", false, false,
        fun _ _ => StoreOutcome.ok demoConfig, fun _ => true,
        ProxyOutcome.ok 200, 0⟩ = ⟨GResp.next, [], []⟩ :=
  unauthenticated_api_passthrough _ (by decide) (by decide) (by decide) (by decide)

end ThrottleX
